import Mathlib

/-!
Shallow embedding of `src/wifi-keep-alive.py` (a periodic ping loop) and
proofs about its behaviour.

The script has two functions:

* `ping(host, count=4)` builds the command
  `["ping", param, str(count), host]` where `param` is `"-n"` when
  `sys.platform == "win32"` and `"-c"` otherwise, runs it with
  `subprocess.run(..., check=True)`, returns `True` on success, returns
  `False` when `subprocess.CalledProcessError` is raised (non-zero exit),
  and lets any other exception propagate.

* `main()` parses `host` and the interval option `-i` (an `int`, default 60,
  with no further validation), prints a two-line banner, then loops
  forever: probe, print `Ping to {host}: OK|FAILED`, `time.sleep(interval)`.
  `KeyboardInterrupt` is caught around the loop and prints `"\nStopped."`,
  after which `main` returns normally (exit code 0).

The embedding models the subprocess as an oracle from the command line to
a run result, the stub Prober of the loop as a function from the iteration
index to a boolean, and the infinite loop as a fuel-indexed trace of
events, with an optional interrupt point (the iteration during whose sleep
a `KeyboardInterrupt` is delivered).  `time.sleep` of a negative duration
raises `ValueError`, which the loop does not catch; this is modelled too.
-/

namespace WifiKeepAlive

/-- Result of the operating system actually running (or failing to run) an
external command: either the process ran and exited with a code, or the
executable was absent (Python raises `FileNotFoundError`). -/
inductive RunResult
  | exit (code : Nat)
  | fileNotFound
deriving DecidableEq, Repr

/-- The Python exceptions relevant to this script. -/
inductive PyExc
  | calledProcessError (returncode : Nat)
  | fileNotFoundError
  | valueError
deriving DecidableEq, Repr

/-- Semantics of `subprocess.run(command, check=True)`: exit code 0 is
success, a non-zero exit code raises `CalledProcessError`, a missing
executable raises `FileNotFoundError`. -/
def runCheck : RunResult → Except PyExc Unit
  | .exit c => if c = 0 then .ok () else .error (.calledProcessError c)
  | .fileNotFound => .error .fileNotFoundError

/-- The command list built by `ping` (source lines 54-56):
`param = "-n" if sys.platform == "win32" else "-c"`;
`command = ["ping", param, str(count), host]`. -/
def pingCommand (sysPlatform host : String) (count : Int) : List String :=
  ["ping", if sysPlatform = "win32" then "-n" else "-c", toString count, host]

/-- The `ping` function (source lines 40-64).  `runner` is the oracle for
what happens when the operating system runs a command.  The `try` block
returns `true` on success; `except subprocess.CalledProcessError` returns
`false`; every other exception propagates to the caller. -/
def ping (sysPlatform : String) (runner : List String → RunResult)
    (host : String) (count : Int) : Except PyExc Bool :=
  match runCheck (runner (pingCommand sysPlatform host count)) with
  | .ok _ => .ok true
  | .error (.calledProcessError _) => .ok false
  | .error e => .error e

/-- The default of the interval option `-i` (source line 89). -/
def defaultInterval : Int := 60

/-- Semantics of the argparse option: a supplied value is used as parsed,
an omitted option takes the declared default of 60.  `main` performs no
further validation of the value. -/
def parseInterval : Option Int → Int
  | some i => i
  | none => defaultInterval

/-- The per-iteration status line (source line 104):
`f"Ping to {args.host}: {status}"` where `status` is `"OK"` or
`"FAILED"` (source line 103). -/
def statusLine (host : String) (success : Bool) : String :=
  "Ping to " ++ host ++ ": " ++ (if success then "OK" else "FAILED")

/-- First banner line (source line 96). -/
def banner1 (host : String) (interval : Int) : String :=
  "Starting keep-alive pings to " ++ host ++ " every "
    ++ toString interval ++ " seconds..."

/-- Second banner line (source line 97). -/
def banner2 : String := "Press Ctrl+C to stop."

/-- The message printed by the `KeyboardInterrupt` handler
(source line 111). -/
def stoppedMsg : String := "\nStopped."

/-- Observable events of a run: a probe issued with a concrete command, a
line printed to standard output, a completed sleep of a given duration. -/
inductive Event
  | probe (command : List String)
  | printLine (line : String)
  | sleep (seconds : Int)
deriving DecidableEq, Repr

/-- How the modelled segment of the `while True` loop ended. -/
inductive LoopExit
  | fuelOut
  | keyboardInterrupt
  | exc (e : PyExc)
deriving DecidableEq, Repr

/-- How the modelled segment of `main` ended. -/
inductive MainOutcome
  | stillRunning
  | exitCode (code : Nat)
  | uncaught (e : PyExc)
deriving DecidableEq, Repr

/-- The loop body (source lines 101-107), iterated `fuel` times starting
at iteration index `i`.  Each iteration probes (`success = ping(args.host)`,
count defaulting to 4) and prints the status line; then `time.sleep`
either raises `ValueError` (negative interval), or is interrupted by a
`KeyboardInterrupt` delivered during the sleep of iteration `intr`, or
completes and the loop continues.  `prober` is the boolean result of the
probe at each iteration index (a stub Prober). -/
def loopModel (sysPlatform host : String) (interval : Int) (prober : Nat → Bool)
    (intr : Option Nat) : Nat → Nat → List Event × LoopExit
  | _, 0 => ([], .fuelOut)
  | i, fuel + 1 =>
    let pre := [Event.probe (pingCommand sysPlatform host 4),
                Event.printLine (statusLine host (prober i))]
    if interval < 0 then (pre, .exc .valueError)
    else if intr = some i then (pre, .keyboardInterrupt)
    else
      let rest := loopModel sysPlatform host interval prober intr (i + 1) fuel
      (pre ++ Event.sleep interval :: rest.1, rest.2)

/-- `main` after argument parsing (source lines 95-111): print the banner,
run the loop; `KeyboardInterrupt` is caught and prints `"\nStopped."`,
after which `main` returns normally (process exit code 0); any other
exception is uncaught (the process dies with a traceback). -/
def mainModel (sysPlatform host : String) (interval : Int) (prober : Nat → Bool)
    (intr : Option Nat) (fuel : Nat) : List Event × MainOutcome :=
  let banner := [Event.printLine (banner1 host interval), Event.printLine banner2]
  let r := loopModel sysPlatform host interval prober intr 0 fuel
  match r.2 with
  | .fuelOut => (banner ++ r.1, .stillRunning)
  | .keyboardInterrupt => (banner ++ r.1 ++ [Event.printLine stoppedMsg], .exitCode 0)
  | .exc e => (banner ++ r.1, .uncaught e)

/-- The three events of one completed loop iteration. -/
def iterTriple (sysPlatform host : String) (interval : Int) (r : Bool) : List Event :=
  [Event.probe (pingCommand sysPlatform host 4),
   Event.printLine (statusLine host r),
   Event.sleep interval]

/-- The trace of `fuel` completed iterations starting at index `i`. -/
def expectedTrace (sysPlatform host : String) (interval : Int)
    (prober : Nat → Bool) : Nat → Nat → List Event
  | _, 0 => []
  | i, fuel + 1 =>
    iterTriple sysPlatform host interval (prober i)
      ++ expectedTrace sysPlatform host interval prober (i + 1) fuel

/-- Number of probe events in a trace. -/
def probeCount (evs : List Event) : Nat :=
  evs.countP (fun e => match e with | .probe _ => true | _ => false)

/-- The lines printed in a trace, in order. -/
def printedLines (evs : List Event) : List String :=
  evs.filterMap (fun e => match e with | .printLine l => some l | _ => none)

/-! ### Trace-shape lemmas -/

/-- With a non-negative interval and no interrupt, the loop trace is the
concatenation of per-iteration triples (probe, status line, sleep). -/
theorem loopModel_no_intr (plat host : String) (v : Int) (f : Nat → Bool)
    (hv : 0 ≤ v) :
    ∀ fuel i, loopModel plat host v f none i fuel
      = (expectedTrace plat host v f i fuel, LoopExit.fuelOut) := by
  intro fuel
  induction fuel with
  | zero => intro i; rfl
  | succ n ih =>
    intro i
    have hneg : ¬ v < 0 := not_lt.mpr hv
    simp [loopModel, expectedTrace, iterTriple, hneg, ih (i + 1)]

/-- With a non-negative interval and an interrupt during the sleep of
iteration `k`, the loop runs `k - i` full iterations, then probes and
prints once more, and exits with `KeyboardInterrupt`. -/
theorem loopModel_intr (plat host : String) (v : Int) (f : Nat → Bool) (k : Nat)
    (hv : 0 ≤ v) :
    ∀ fuel i, i ≤ k → k < i + fuel →
      loopModel plat host v f (some k) i fuel
        = (expectedTrace plat host v f i (k - i)
            ++ [Event.probe (pingCommand plat host 4),
                Event.printLine (statusLine host (f k))],
           LoopExit.keyboardInterrupt) := by
  intro fuel
  induction fuel with
  | zero => intro i h1 h2; omega
  | succ n ih =>
    intro i h1 h2
    have hneg : ¬ v < 0 := not_lt.mpr hv
    by_cases hik : i = k
    · subst hik
      simp [loopModel, hneg, Nat.sub_self, expectedTrace]
    · have hki : ¬ k = i := fun h => hik h.symm
      have hrec := ih (i + 1) (by omega) (by omega)
      have hsub : k - i = (k - (i + 1)) + 1 := by omega
      rw [hsub]
      simp [loopModel, hneg, hki, hrec, expectedTrace, iterTriple]

/-- With a negative interval the first `time.sleep` raises `ValueError`
right after the first probe and status line. -/
theorem loopModel_neg (plat host : String) (v : Int) (f : Nat → Bool)
    (intr : Option Nat) (hv : v < 0) (i fuel : Nat) :
    loopModel plat host v f intr i (fuel + 1)
      = ([Event.probe (pingCommand plat host 4),
          Event.printLine (statusLine host (f i))],
         LoopExit.exc PyExc.valueError) := by
  simp [loopModel, hv]

/-- Each completed iteration contributes exactly one probe event. -/
theorem probeCount_expectedTrace (plat host : String) (v : Int) (f : Nat → Bool) :
    ∀ fuel i, probeCount (expectedTrace plat host v f i fuel) = fuel := by
  intro fuel
  induction fuel with
  | zero => intro i; rfl
  | succ n ih =>
    intro i
    unfold expectedTrace
    rw [probeCount, List.countP_append]
    have h1 := ih (i + 1)
    rw [probeCount] at h1
    rw [h1]
    simp [iterTriple, List.countP_cons, Nat.add_comm]

/-- Each completed iteration contributes exactly one printed line, the
status line of that iteration, in order. -/
theorem printedLines_expectedTrace (plat host : String) (v : Int) (f : Nat → Bool) :
    ∀ fuel i, printedLines (expectedTrace plat host v f i fuel)
      = (List.range fuel).map (fun j => statusLine host (f (i + j))) := by
  intro fuel
  induction fuel with
  | zero => intro i; rfl
  | succ n ih =>
    intro i
    have hfun : ((fun j => statusLine host (f (i + j))) ∘ Nat.succ)
        = fun j => statusLine host (f (i + 1 + j)) := by
      funext j
      simp only [Function.comp]
      have h : i + Nat.succ j = i + 1 + j := by omega
      rw [h]
    rw [List.range_succ_eq_map, List.map_cons, List.map_map, hfun]
    unfold expectedTrace printedLines
    rw [List.filterMap_append]
    have h1 := ih (i + 1)
    rw [printedLines] at h1
    rw [h1]
    simp [iterTriple]

/-! ### Claims -/

/-- C1: for every host string and packet count, `ping` returns `true`
exactly when the invoked system ping command exits with status 0, and
returns `false` (an ordinary value, not an exception) on every non-zero
exit status — unreachable host, timeout and unresolved hostname all
surface as non-zero exits of the external command. -/
theorem ping_true_iff_exit_zero (plat : String) (runner : List String → RunResult)
    (host : String) (count : Int) (code : Nat)
    (h : runner (pingCommand plat host count) = RunResult.exit code) :
    (ping plat runner host count = .ok true ↔ code = 0) ∧
    (code ≠ 0 → ping plat runner host count = .ok false) := by
  unfold ping runCheck
  rw [h]
  by_cases hc : code = 0 <;> simp [hc]

/-- Witness for C1 at a concrete failing run (exit code 1). -/
theorem ping_true_iff_exit_zero_witness :
    (fun _ : List String => RunResult.exit 1) (pingCommand "linux" "example.com" 4)
        = RunResult.exit 1 ∧
    ((ping "linux" (fun _ => RunResult.exit 1) "example.com" 4 = .ok true ↔ (1 : Nat) = 0) ∧
     ((1 : Nat) ≠ 0 → ping "linux" (fun _ => RunResult.exit 1) "example.com" 4 = .ok false)) :=
  ⟨rfl, ping_true_iff_exit_zero "linux" (fun _ => RunResult.exit 1) "example.com" 4 1 rfl⟩

/-- C10: if running the command fails other than with a non-zero exit
status — the ping executable is absent, raising `FileNotFoundError` —
`ping` does not return `false` but propagates the exception, since only
`CalledProcessError` is caught. -/
theorem ping_propagates_missing_executable (plat : String)
    (runner : List String → RunResult) (host : String) (count : Int)
    (h : runner (pingCommand plat host count) = RunResult.fileNotFound) :
    ping plat runner host count = .error PyExc.fileNotFoundError := by
  unfold ping runCheck
  rw [h]

/-- Witness for C10 at a concrete oracle that reports a missing executable. -/
theorem ping_propagates_missing_executable_witness :
    (fun _ : List String => RunResult.fileNotFound) (pingCommand "linux" "h" 4)
        = RunResult.fileNotFound ∧
    ping "linux" (fun _ => RunResult.fileNotFound) "h" 4 = .error PyExc.fileNotFoundError :=
  ⟨rfl, ping_propagates_missing_executable "linux" (fun _ => RunResult.fileNotFound) "h" 4 rfl⟩

/-- Probe counting distributes over trace concatenation. -/
theorem probeCount_append (a b : List Event) :
    probeCount (a ++ b) = probeCount a + probeCount b := by
  unfold probeCount
  rw [List.countP_append]

/-- Every probe event of an uninterrupted trace carries the command built
from the platform, the host and the default count 4. -/
theorem probe_mem_expectedTrace (plat host : String) (v : Int) (f : Nat → Bool) :
    ∀ fuel i c, Event.probe c ∈ expectedTrace plat host v f i fuel →
      c = pingCommand plat host 4 := by
  intro fuel
  induction fuel with
  | zero => intro i c h; simp [expectedTrace] at h
  | succ n ih =>
    intro i c h
    simp only [expectedTrace, iterTriple, List.cons_append, List.nil_append,
      List.mem_cons] at h
    rcases h with h | h | h | h
    · exact (Event.probe.injEq _ _).mp h
    · exact absurd h (by simp)
    · exact absurd h (by simp)
    · exact ih (i + 1) c h

/-- C5: a `KeyboardInterrupt` delivered during the sleep of iteration `k`
is caught: `main` returns normally (exit code 0), the final printed event
is the `"\nStopped."` line, and exactly `k + 1` probes were issued — none
after the interrupt. -/
theorem main_interrupt_clean (plat host : String) (v : Int) (f : Nat → Bool)
    (k fuel : Nat) (hv : 0 ≤ v) (hk : k < fuel) :
    (mainModel plat host v f (some k) fuel).2 = MainOutcome.exitCode 0 ∧
    (mainModel plat host v f (some k) fuel).1.getLast?
      = some (Event.printLine stoppedMsg) ∧
    probeCount (mainModel plat host v f (some k) fuel).1 = k + 1 := by
  have hl := loopModel_intr plat host v f k hv fuel 0 (Nat.zero_le k) (by omega)
  rw [Nat.sub_zero] at hl
  have h2 : mainModel plat host v f (some k) fuel
      = (([Event.printLine (banner1 host v), Event.printLine banner2]
          ++ (expectedTrace plat host v f 0 k
              ++ [Event.probe (pingCommand plat host 4),
                  Event.printLine (statusLine host (f k))]))
          ++ [Event.printLine stoppedMsg], MainOutcome.exitCode 0) := by
    unfold mainModel
    rw [hl]
  refine ⟨?_, ?_, ?_⟩
  · rw [h2]
  · rw [h2]
    exact List.getLast?_concat _
  · rw [h2]
    simp only [probeCount_append, probeCount_expectedTrace]
    have hb : probeCount [Event.printLine (banner1 host v), Event.printLine banner2]
        = 0 := rfl
    have hm : probeCount [Event.probe (pingCommand plat host 4),
        Event.printLine (statusLine host (f k))] = 1 := rfl
    have hs : probeCount [Event.printLine stoppedMsg] = 0 := rfl
    rw [hb, hm, hs]
    omega

/-- Witness for C5: interval 1, interrupt during the first sleep. -/
theorem main_interrupt_clean_witness :
    (0 : Int) ≤ 1 ∧ 0 < 1 ∧
    ((mainModel "linux" "h" 1 (fun _ => true) (some 0) 1).2
        = MainOutcome.exitCode 0 ∧
     (mainModel "linux" "h" 1 (fun _ => true) (some 0) 1).1.getLast?
        = some (Event.printLine stoppedMsg) ∧
     probeCount (mainModel "linux" "h" 1 (fun _ => true) (some 0) 1).1 = 0 + 1) :=
  ⟨by decide, by decide,
   main_interrupt_clean "linux" "h" 1 (fun _ => true) 0 1 (by decide) (by decide)⟩

/-- C6: for a valid interval (≥ 1 second), the uninterrupted loop trace is
a sequence of per-iteration triples — probe, then exactly one status line,
then the sleep — the printed lines are exactly the status lines of the
probe results in order, and the status line of a successful probe contains
`"OK"` while that of a failed probe contains `"FAILED"`. -/
theorem one_status_line_per_cycle (plat host : String) (v : Int)
    (f : Nat → Bool) (n i : Nat) (hv : 1 ≤ v) :
    (loopModel plat host v f none 0 n).1 = expectedTrace plat host v f 0 n ∧
    printedLines (expectedTrace plat host v f 0 n)
      = (List.range n).map (fun j => statusLine host (f j)) ∧
    probeCount (expectedTrace plat host v f 0 n) = n ∧
    (cond (f i) "OK" "FAILED").data <:+: (statusLine host (f i)).data := by
  have hv0 : (0 : Int) ≤ v := by omega
  refine ⟨?_, ?_, ?_, ?_⟩
  · rw [loopModel_no_intr plat host v f hv0 n 0]
  · rw [printedLines_expectedTrace plat host v f n 0]
    simp
  · exact probeCount_expectedTrace plat host v f n 0
  · refine ⟨("Ping to " ++ host ++ ": ").data, [], ?_⟩
    cases hf : f i <;>
      simp [statusLine, hf, String.data_append]

/-- Witness for C6: interval 1, a single always-successful iteration. -/
theorem one_status_line_per_cycle_witness :
    (1 : Int) ≤ 1 ∧
    ((loopModel "linux" "h" 1 (fun _ => true) none 0 1).1
        = expectedTrace "linux" "h" 1 (fun _ => true) 0 1 ∧
     printedLines (expectedTrace "linux" "h" 1 (fun _ => true) 0 1)
        = (List.range 1).map (fun j => statusLine "h" ((fun _ : Nat => true) j)) ∧
     probeCount (expectedTrace "linux" "h" 1 (fun _ => true) 0 1) = 1 ∧
     (cond ((fun _ : Nat => true) 0) "OK" "FAILED").data
        <:+: (statusLine "h" ((fun _ : Nat => true) 0)).data) :=
  ⟨by decide, one_status_line_per_cycle "linux" "h" 1 (fun _ => true) 1 0 (by decide)⟩

/-- C8: with target `203.0.113.5`, interval 30 and a stub Prober that
returns false, true, false over the first three iterations, the loop
produces exactly three status lines, in order FAILED, OK, FAILED, each
followed by a 30-second sleep; after three iterations the loop is still
running, and a later interrupt makes `main` exit with code 0. -/
theorem scenario_failed_ok_failed (plat : String) :
    loopModel plat "203.0.113.5" 30 (fun i => i == 1) none 0 3
      = ([Event.probe (pingCommand plat "203.0.113.5" 4),
          Event.printLine "Ping to 203.0.113.5: FAILED",
          Event.sleep 30,
          Event.probe (pingCommand plat "203.0.113.5" 4),
          Event.printLine "Ping to 203.0.113.5: OK",
          Event.sleep 30,
          Event.probe (pingCommand plat "203.0.113.5" 4),
          Event.printLine "Ping to 203.0.113.5: FAILED",
          Event.sleep 30], LoopExit.fuelOut) ∧
    printedLines (loopModel plat "203.0.113.5" 30 (fun i => i == 1) none 0 3).1
      = ["Ping to 203.0.113.5: FAILED", "Ping to 203.0.113.5: OK",
         "Ping to 203.0.113.5: FAILED"] ∧
    (mainModel plat "203.0.113.5" 30 (fun i => i == 1) (some 5) 6).2
      = MainOutcome.exitCode 0 :=
  ⟨rfl, rfl, rfl⟩

/-- C9: an omitted interval option defaults to 60 seconds, and the run
starts with the two banner lines — the first of which spells out both the
target and the interval — before any probe event. -/
theorem default_interval_and_banner (plat host : String) (f : Nat → Bool)
    (intr : Option Nat) (fuel : Nat) :
    parseInterval none = 60 ∧
    (mainModel plat host (parseInterval none) f intr fuel).1.head?
      = some (Event.printLine (banner1 host 60)) ∧
    ((mainModel plat host (parseInterval none) f intr fuel).1.tail).head?
      = some (Event.printLine banner2) ∧
    host.data <:+: (banner1 host 60).data ∧
    ("60" : String).data <:+: (banner1 host 60).data := by
  have hd : parseInterval none = 60 := rfl
  have h60 : toString (60 : Int) = "60" := rfl
  refine ⟨hd, ?_, ?_, ?_, ?_⟩
  · rw [hd]
    unfold mainModel
    cases h : (loopModel plat host 60 f intr 0 fuel).2 <;> simp [h]
  · rw [hd]
    unfold mainModel
    cases h : (loopModel plat host 60 f intr 0 fuel).2 <;> simp [h]
  · refine ⟨"Starting keep-alive pings to ".data,
      (" every ".data ++ (toString (60 : Int)).data ++ " seconds...".data), ?_⟩
    simp [banner1, String.data_append, List.append_assoc]
  · refine ⟨("Starting keep-alive pings to ".data ++ host.data ++ " every ".data),
      " seconds...".data, ?_⟩
    rw [← h60]
    simp [banner1, String.data_append, List.append_assoc]

/-- C2 counterexample: the program performs no interval validation.  With
interval `-5` a probe IS issued (the claim says none ever is), and with
interval `0` the process does not fail at startup at all — after a full
iteration it is still running, a probe having been issued. -/
theorem interval_validation_cex :
    Event.probe (pingCommand "linux" "192.168.1.1" 4)
        ∈ (mainModel "linux" "192.168.1.1" (-5) (fun _ => false) none 1).1 ∧
    (mainModel "linux" "192.168.1.1" 0 (fun _ => false) none 2).2
        = MainOutcome.stillRunning ∧
    Event.probe (pingCommand "linux" "192.168.1.1" 4)
        ∈ (mainModel "linux" "192.168.1.1" 0 (fun _ => false) none 2).1 := by
  decide

/-- C2 amended: no startup validation of the interval is performed.  For
any host the banner is printed and probing begins regardless of the
interval's sign.  With interval `-5` the first probe and its status line
are emitted, then the first `time.sleep` raises an uncaught `ValueError`
(the process dies with a traceback rather than a validation message); with
interval `0` the loop keeps running, one probe per iteration. -/
theorem no_interval_validation (plat host : String) (f : Nat → Bool)
    (fuel : Nat) :
    mainModel plat host (-5) f none 1
      = ([Event.printLine (banner1 host (-5)), Event.printLine banner2,
          Event.probe (pingCommand plat host 4),
          Event.printLine (statusLine host (f 0))],
         MainOutcome.uncaught PyExc.valueError) ∧
    (mainModel plat host 0 f none fuel).2 = MainOutcome.stillRunning ∧
    probeCount (mainModel plat host 0 f none fuel).1 = fuel := by
  have hl := loopModel_no_intr plat host 0 f le_rfl fuel 0
  have h0 : mainModel plat host 0 f none fuel
      = ([Event.printLine (banner1 host 0), Event.printLine banner2]
          ++ expectedTrace plat host 0 f 0 fuel, MainOutcome.stillRunning) := by
    unfold mainModel
    rw [hl]
  refine ⟨rfl, ?_, ?_⟩
  · rw [h0]
  · rw [h0, probeCount_append, probeCount_expectedTrace]
    have hb : probeCount [Event.printLine (banner1 host 0), Event.printLine banner2]
        = 0 := rfl
    rw [hb]
    omega

/-- C3 counterexample: the probe command issued by the loop driver is
exactly `["ping", "-c", "4", "203.0.113.5"]` — four elements, none of
which is a ping timeout flag (`-w`/`-W`) or a 5-second / 5000-millisecond
value, so no timeout argument of any kind is included, let alone a fixed
default of 5 seconds. -/
theorem loop_probe_no_timeout_cex :
    (loopModel "linux" "203.0.113.5" 30 (fun _ => true) none 0 1).1.head?
      = some (Event.probe ["ping", "-c", "4", "203.0.113.5"]) ∧
    "-w" ∉ pingCommand "linux" "203.0.113.5" 4 ∧
    "-W" ∉ pingCommand "linux" "203.0.113.5" 4 ∧
    "5" ∉ pingCommand "linux" "203.0.113.5" 4 ∧
    "5000" ∉ pingCommand "linux" "203.0.113.5" 4 ∧
    (pingCommand "linux" "203.0.113.5" 4).length = 4 := by
  decide

/-- C3 amended: the loop driver calls `ping` with only the host, so the
packet count defaults to 4 and no timeout is passed: every probe command
issued by the loop is exactly `["ping", countFlag, "4", host]`, with no
timeout argument — the wait is bounded only by the ping utility's own
default behaviour. -/
theorem loop_probe_command_exact (plat host : String) (v : Int)
    (f : Nat → Bool) (n : Nat) (c : List String) (hv : 0 ≤ v)
    (hc : Event.probe c ∈ (loopModel plat host v f none 0 n).1) :
    c = pingCommand plat host 4 ∧
    pingCommand plat host 4
      = ["ping", if plat = "win32" then "-n" else "-c", "4", host] := by
  rw [loopModel_no_intr plat host v f hv n 0] at hc
  refine ⟨probe_mem_expectedTrace plat host v f n 0 c hc, ?_⟩
  have h4 : toString (4 : Int) = "4" := rfl
  rw [pingCommand, h4]

/-- Witness for the amended C3 at one concrete uninterrupted iteration. -/
theorem loop_probe_command_exact_witness :
    (0 : Int) ≤ 30 ∧
    Event.probe ["ping", "-c", "4", "h"]
        ∈ (loopModel "linux" "h" 30 (fun _ => true) none 0 1).1 ∧
    (["ping", "-c", "4", "h"] = pingCommand "linux" "h" 4 ∧
     pingCommand "linux" "h" 4
       = ["ping", if ("linux" : String) = "win32" then "-n" else "-c", "4", "h"]) :=
  ⟨by decide, by decide,
   loop_probe_command_exact "linux" "h" 30 (fun _ => true) 1
     ["ping", "-c", "4", "h"] (by decide) (by decide)⟩

/-- C4 counterexample: the status line printed for a successful probe of
`203.0.113.5` is exactly `Ping to 203.0.113.5: OK` — its first character
is `P`, not an opening bracket, so it does not begin with a bracketed
timestamp. -/
theorem status_line_no_timestamp_cex :
    statusLine "203.0.113.5" true = "Ping to 203.0.113.5: OK" ∧
    (statusLine "203.0.113.5" true).data.head? = some 'P' ∧
    (statusLine "203.0.113.5" true).data.head? ≠ some '[' := by
  decide

/-- C4 amended: the status line of every loop iteration is
`Ping to <target>: OK|FAILED` — it names the target and ends with `OK` on
success and `FAILED` on failure, but carries no timestamp: it always
begins with the literal character `P` of `"Ping to "`, and it is the
event printed directly after each probe. -/
theorem statusLine_form (host : String) (r : Bool) (plat : String) (v : Int)
    (f : Nat → Bool) (i n : Nat) :
    (statusLine host r).data
      = ("Ping to " ++ host ++ ": ").data ++ (cond r "OK" "FAILED").data ∧
    (statusLine host r).data.head? = some 'P' ∧
    ((loopModel plat host v f none i (n + 1)).1.drop 1).head?
      = some (Event.printLine (statusLine host (f i))) := by
  refine ⟨?_, rfl, ?_⟩
  · cases r <;> simp [statusLine, String.data_append]
  · unfold loopModel
    by_cases hv : v < 0
    · simp [hv]
    · simp [hv]

/-- C7 counterexample: on a Windows-family platform the constructed
command is exactly `["ping", "-n", "4", "gateway.local"]` — it does use
the `-n` count flag, but contains no `-w` flag and no millisecond value,
so no millisecond timeout is used. -/
theorem windows_no_ms_timeout_cex :
    pingCommand "win32" "gateway.local" 4
      = ["ping", "-n", "4", "gateway.local"] ∧
    "-w" ∉ pingCommand "win32" "gateway.local" 4 ∧
    "5000" ∉ pingCommand "win32" "gateway.local" 4 ∧
    (pingCommand "win32" "gateway.local" 4).length = 4 := by
  decide

/-- C7 amended: only the count flag is selected by operating-system
family — `-n` when `sys.platform` is `"win32"` and `-c` otherwise; the
command contains no timeout argument on either family, in any unit. -/
theorem pingCommand_platform_flags (host : String) (count : Int)
    (plat : String) (hplat : plat ≠ "win32") :
    pingCommand "win32" host count = ["ping", "-n", toString count, host] ∧
    pingCommand plat host count = ["ping", "-c", toString count, host] := by
  constructor
  · simp [pingCommand]
  · simp [pingCommand, hplat]

/-- Witness for the amended C7 with the Unix side instantiated at Linux. -/
theorem pingCommand_platform_flags_witness :
    ("linux" : String) ≠ "win32" ∧
    (pingCommand "win32" "h" 4 = ["ping", "-n", toString (4 : Int), "h"] ∧
     pingCommand "linux" "h" 4 = ["ping", "-c", toString (4 : Int), "h"]) :=
  ⟨by decide, pingCommand_platform_flags "h" 4 "linux" (by decide)⟩

end WifiKeepAlive
